import Mathlib

/-!
Verification of the C++ compilation-error parser (src/cpp_error_parser/main.py)
against its natural-language specification.

The Python module is embedded shallowly: strings are Lean `String`s, the
regular expressions of the source are translated into explicit, executable
matching functions that reproduce the backtracking semantics of Python's
`re` on the patterns actually used (lazy groups, greedy digit and whitespace
runs, end anchors), and the line-by-line parsing loop becomes a fold over the
list of lines with an explicit accumulation state.

Whitespace and digit classes are modelled on their ASCII parts (Python's
`\s`, `\d`, `str.strip`, `str.lower` and `int` additionally accept some
non-ASCII characters); none of the claims below depends on that difference.
-/

/-- ASCII whitespace as Python's `\s` and `str.strip` treat it. -/
def isPyWs (c : Char) : Bool :=
  c = ' ' || c = '\t' || c = '\n' || c = '\r' || c = '\x0b' || c = '\x0c'

/-- Whether `p` is a prefix of `cs` (Python's `str.startswith` on char lists). -/
def isPre : List Char → List Char → Bool
  | [], _ => true
  | _ :: _, [] => false
  | p :: ps, c :: cs => p = c && isPre ps cs

/-- Drop the prefix `p` from `cs`; `none` when `p` is not a prefix. -/
def stripPre : List Char → List Char → Option (List Char)
  | [], cs => some cs
  | _ :: _, [] => none
  | p :: ps, c :: cs => if p = c then stripPre ps cs else none

/-- Whether `needle` occurs as a contiguous substring (Python's `in` on strings). -/
def containsSub (needle : List Char) : List Char → Bool
  | [] => isPre needle []
  | c :: cs => isPre needle (c :: cs) || containsSub needle cs

/-- Python's `needle in hay` on strings. -/
def strContains (hay needle : String) : Bool :=
  containsSub needle.toList hay.toList

/-- Python's `str.lower` (ASCII part). -/
def pyLower (s : String) : String :=
  String.mk (s.toList.map Char.toLower)

/-- Strip leading and trailing whitespace from a char list (Python `str.strip`). -/
def pyStripList (cs : List Char) : List Char :=
  ((cs.dropWhile isPyWs).reverse.dropWhile isPyWs).reverse

/-- Python's `str.strip()`. -/
def pyStrip (s : String) : String :=
  String.mk (pyStripList s.toList)

/-- Python's `str.split(sep)` for a one-character separator: keeps empty pieces,
yields one piece for an empty input. -/
def splitOnAux (sep : Char) (acc : List Char) : List Char → List (List Char)
  | [] => [acc.reverse]
  | c :: rest =>
      if c = sep then acc.reverse :: splitOnAux sep [] rest
      else splitOnAux sep (c :: acc) rest

/-- The value of a run of ASCII digits. -/
def digitsVal (cs : List Char) : Nat :=
  cs.foldl (fun n c => n * 10 + (c.toNat - 48)) 0

/-- Tail of Python's integer-literal digit grammar: digits with single
underscores allowed between digits. -/
def pyDigitsTail : List Char → Bool
  | [] => true
  | '_' :: rest =>
      match rest with
      | [] => false
      | d :: rest2 => d.isDigit && pyDigitsTail rest2
  | c :: rest => c.isDigit && pyDigitsTail rest

/-- Python's integer-literal digit grammar: nonempty, starts with a digit,
single underscores only between digits. -/
def pyDigitsOK : List Char → Bool
  | [] => false
  | c :: cs => c.isDigit && pyDigitsTail cs

/-- Numeric value of a Python digit group, ignoring underscores. -/
def pyDigitsValue (cs : List Char) : Nat :=
  digitsVal (cs.filter (fun c => c ≠ '_'))

/-- Python's `int(s)` on a string: strip whitespace, optional sign, digit
group; `none` models the `ValueError` raised otherwise (ASCII digits). -/
def pyInt (s : String) : Option Int :=
  match pyStripList s.toList with
  | [] => none
  | '+' :: rest =>
      if pyDigitsOK rest then some (Int.ofNat (pyDigitsValue rest)) else none
  | '-' :: rest =>
      if pyDigitsOK rest then some (-(Int.ofNat (pyDigitsValue rest))) else none
  | cs =>
      if pyDigitsOK cs then some (Int.ofNat (pyDigitsValue cs)) else none

/-- Data model of `ErrorLocation` (main.py lines 17-22). -/
structure ErrorLocation where
  file : String
  line : Option Int := none
  column : Option Int := none
  function : Option String := none
deriving Repr, DecidableEq, Inhabited

/-- Data model of `TemplateInstantiation` (main.py lines 25-30): one frame of
an instantiation chain; `level` is the spec's `depth`. -/
structure TemplateInstantiation where
  template_name : String
  location : ErrorLocation
  context : String
  level : Nat := 0
deriving Repr, DecidableEq, Inhabited

/-- Data model of `CompilationError` (main.py lines 33-41). The
`related_errors` field of the source is omitted: it is never written or read
anywhere in the module. -/
structure CompilationError where
  main_error : String
  location : ErrorLocation
  template_chain : List TemplateInstantiation := []
  notes : List (String × ErrorLocation) := []
  candidates : List String := []
  error_type : String := "Unknown"
deriving Repr, DecidableEq, Inhabited

/-- Try the delimiter at the current position of a lazy scan: if `delim` is a
prefix of `cs` and the continuation `k` succeeds on what follows, the group
captured so far (`acc`, reversed) and `k`'s value are returned. -/
def tryHere (delim : List Char) (k : List Char → Option β) (acc cs : List Char) :
    Option (List Char × β) :=
  match stripPre delim cs with
  | some rest =>
      match k rest with
      | some b => some (acc.reverse, b)
      | none => none
  | none => none

/-- Backtracking for a lazy group followed by `delim` and continuation `k`
(regex `(.*?)delim...`): positions are tried left to right, the first
position where the delimiter and the whole continuation succeed wins. -/
def lazyScanAux (delim : List Char) (k : List Char → Option β) :
    List Char → List Char → Option (List Char × β)
  | acc, [] => tryHere delim k acc []
  | acc, c :: cs =>
      match tryHere delim k acc (c :: cs) with
      | some r => some r
      | none => lazyScanAux delim k (c :: acc) cs

/-- Lazy nonempty group followed by `delim` and continuation `k`
(regex `(.+?)delim...`): at least one character enters the group. -/
def lazyScanOne (delim : List Char) (k : List Char → Option β) :
    List Char → Option (List Char × β)
  | [] => none
  | c :: cs => lazyScanAux delim k [c] cs

/-- Regex `\s+(.+)$` on what remains of a line: at least one whitespace
character, then a nonempty rest; when everything left is whitespace the
greedy run backtracks by one character, as Python's engine does. -/
def wsThenMsg (cs : List Char) : Option (List Char) :=
  let w := cs.takeWhile isPyWs
  let r := cs.dropWhile isPyWs
  if w = [] then none
  else if r ≠ [] then some r
  else
    match w.reverse with
    | [] => none
    | [_] => none
    | last :: _ :: _ => some [last]

/-- Regex `(\d+):(\d+):` after the file group's colon: two greedy digit runs,
each followed by a colon; returns their values and the rest. -/
def parseLineCol (cs : List Char) : Option (Nat × Nat × List Char) :=
  let d1 := cs.takeWhile Char.isDigit
  let r1 := cs.dropWhile Char.isDigit
  if d1 = [] then none
  else
    match r1 with
    | ':' :: r2 =>
        let d2 := r2.takeWhile Char.isDigit
        let r3 := r2.dropWhile Char.isDigit
        if d2 = [] then none
        else
          match r3 with
          | ':' :: r4 => some (digitsVal d1, digitsVal d2, r4)
          | _ => none
    | _ => none

/-- Regex `\s+kw\s+(.+)$`: a whitespace run, the literal keyword, then
`wsThenMsg`. -/
def wsKeywordMsg (kw : List Char) (cs : List Char) : Option (List Char) :=
  let w := cs.takeWhile isPyWs
  let r := cs.dropWhile isPyWs
  if w = [] then none
  else
    match stripPre kw r with
    | some rest => wsThenMsg rest
    | none => none

/-- Match `^(.+?):(\d+):(\d+):\s+kw\s+(.+)$` against a line: the common shape
of `error_pattern` and `note_pattern` (main.py lines 52-57). -/
def fileLineColMatch (kw : List Char) (line : String) :
    Option (String × Nat × Nat × String) :=
  match lazyScanOne [':']
      (fun rest =>
        match parseLineCol rest with
        | some (l, c, r4) =>
            match wsKeywordMsg kw r4 with
            | some msg => some (l, c, msg)
            | none => none
        | none => none)
      line.toList with
  | some (file, l, c, msg) => some (String.mk file, l, c, String.mk msg)
  | none => none

/-- The source's `error_pattern` (main.py lines 52-54). -/
def errorMatch (line : String) : Option (String × Nat × Nat × String) :=
  fileLineColMatch "error:".toList line

/-- The source's `note_pattern` (main.py lines 55-57). -/
def noteMatch (line : String) : Option (String × Nat × Nat × String) :=
  fileLineColMatch "note:".toList line

/-- The source's `required_from_pattern`
`^(.+?):(\d+):(\d+):\s+required from (.+)$` (main.py lines 49-51). -/
def requiredFromMatch (line : String) : Option (String × Nat × Nat × String) :=
  match lazyScanOne [':']
      (fun rest =>
        match parseLineCol rest with
        | some (l, c, r4) =>
            let w := r4.takeWhile isPyWs
            let r := r4.dropWhile isPyWs
            if w = [] then none
            else
              match stripPre "required from ".toList r with
              | some ctx => if ctx = [] then none else some (l, c, ctx)
              | none => none
        | none => none)
      line.toList with
  | some (file, l, c, ctx) => some (String.mk file, l, c, String.mk ctx)
  | none => none

/-- The source's `template_instantiation_pattern`
`^(.+?):\s*In instantiation of '(.+?)' \[with (.+?)\]:\s*$`
(main.py lines 46-48): returns (location string, template name, parameters). -/
def templateMatch (line : String) : Option (String × String × String) :=
  match lazyScanOne [':']
      (fun rest =>
        match stripPre "In instantiation of '".toList (rest.dropWhile isPyWs) with
        | some r3 =>
            lazyScanOne "' [with ".toList
              (fun r5 =>
                match lazyScanOne "]:".toList
                    (fun r7 => if r7.all isPyWs then some () else none) r5 with
                | some (params, _) => some params
                | none => none)
              r3
        | none => none)
      line.toList with
  | some (loc, name, params) => some (String.mk loc, String.mk name, String.mk params)
  | none => none

/-- The source's `candidate_pattern` `^\s*note:\s+candidate.*?:\s+(.+)$`
(main.py lines 58-60): captures only the trailing description. -/
def candidateMatch (line : String) : Option String :=
  match stripPre "note:".toList (line.toList.dropWhile isPyWs) with
  | some r1 =>
      let w := r1.takeWhile isPyWs
      let r2 := r1.dropWhile isPyWs
      if w = [] then none
      else
        match stripPre "candidate".toList r2 with
        | some r3 =>
            match lazyScanAux [':'] wsThenMsg [] r3 with
            | some (_, msg) => some (String.mk msg)
            | none => none
        | none => none
  | none => none

/-- Regex `\s+\d+$`: the tail of the make-error pattern. -/
def makeTailDigits (cs : List Char) : Bool :=
  let w := cs.takeWhile isPyWs
  let r := cs.dropWhile isPyWs
  w ≠ [] && r ≠ [] && r.all Char.isDigit

/-- Regex `.*?Error\s+\d+$`: leftmost occurrence of `Error` whose tail
completes the pattern. -/
def findErrorTail : List Char → Bool
  | [] => false
  | c :: cs =>
      (match stripPre "Error".toList (c :: cs) with
       | some r => makeTailDigits r
       | none => false) || findErrorTail cs

/-- Regex `.*?:\s*\*\*\*` followed by `findErrorTail`: leftmost colon whose
continuation completes the pattern. -/
def findColonStars : List Char → Bool
  | [] => false
  | c :: cs =>
      (if c = ':' then
        match stripPre "***".toList (cs.dropWhile isPyWs) with
        | some r2 => findErrorTail r2
        | none => false
      else false) || findColonStars cs

/-- The source's `make_error_pattern` `^g?make.*?:\s*\*\*\*.*?Error\s+\d+$`
(main.py lines 61-63). -/
def makeErrorMatch (line : String) : Bool :=
  (match stripPre "gmake".toList line.toList with
   | some r => findColonStars r
   | none => false) ||
  (match stripPre "make".toList line.toList with
   | some r => findColonStars r
   | none => false)

/-- The source's `parse_location` (main.py lines 65-77): split on `:`, and
with at least three parts whose second and third parse as integers produce a
full location, otherwise fall back to the whole string as the file. -/
def parse_location (location_str : String) : ErrorLocation :=
  match (splitOnAux ':' [] location_str.toList).map String.mk with
  | p0 :: p1 :: p2 :: _ =>
      match pyInt p1, pyInt p2 with
      | some l, some c => { file := p0, line := some l, column := some c }
      | _, _ => { file := location_str }
  | _ => { file := location_str }

/-- The source's `classify_error_type` (main.py lines 79-100): an if-chain of
substring tests on the message, only the `template` test on the lowercased
message; the final else is the generic category. -/
def classify_error_type (error_msg : String) : String :=
  if strContains error_msg "use of deleted function" then "Deleted Function"
  else if strContains error_msg "no matching function" then "No Matching Function"
  else if strContains error_msg "no member named" then "No Member"
  else if strContains error_msg "incomplete type" then "Incomplete Type"
  else if strContains error_msg "static assertion failed" then "Static Assertion Failed"
  else if strContains (pyLower error_msg) "template" then "Template Error"
  else if strContains error_msg "cannot convert" then "Type Conversion Error"
  else if strContains error_msg "ambiguous" then "Ambiguous Reference"
  else "Compilation Error"

/-- Accumulation state of the parsing loop of `parse_error_text`
(main.py lines 105-109): the output list, the three buffers and the
in-progress record. -/
structure ParseState where
  errors : List CompilationError
  chain : List TemplateInstantiation
  notes : List (String × ErrorLocation)
  candidates : List String
  pending : Option CompilationError
deriving Repr, DecidableEq, Inhabited

/-- The state at the top of the loop (main.py lines 105-109). -/
def initState : ParseState :=
  { errors := [], chain := [], notes := [], candidates := [], pending := none }

/-- Closing a record (main.py lines 124-126, 180-182, 219-221): the buffered
chain, notes and candidates are written into the pending record. -/
def closePending (pe : CompilationError) (st : ParseState) : CompilationError :=
  { pe with template_chain := st.chain, notes := st.notes, candidates := st.candidates }

/-- One iteration of the parsing loop on an already stripped line
(main.py lines 113-215), with the branches in source order: make noise,
blank line, instantiation header, "required from", primary error, note. -/
def processStripped (st : ParseState) (line : String) : ParseState :=
  if makeErrorMatch line then st
  else if line = "" then
    match st.pending with
    | some pe =>
        { errors := st.errors ++ [closePending pe st],
          chain := [], notes := [], candidates := [], pending := none }
    | none => st
  else
    match templateMatch line with
    | some (locStr, name, params) =>
        { st with
          chain := st.chain ++
            [{ template_name := name, location := parse_location locStr,
               context := params, level := st.chain.length }] }
    | none =>
        if strContains line "required from" then
          match requiredFromMatch line with
          | some (f, ln, col, ctx) =>
              { st with
                chain := st.chain ++
                  [{ template_name := "required from " ++ ctx,
                     location := { file := f, line := some (ln : Int), column := some (col : Int) },
                     context := "", level := st.chain.length }] }
          | none =>
              { st with
                chain := st.chain ++
                  [{ template_name := line, location := { file := "unknown" },
                     context := "", level := st.chain.length }] }
        else if strContains line "error:" then
          match errorMatch line with
          | some (f, ln, col, msg) =>
              match st.pending with
              | some pe =>
                  { errors := st.errors ++ [closePending pe st],
                    chain := st.chain, notes := [], candidates := [],
                    pending := some
                      { main_error := msg,
                        location := { file := f, line := some (ln : Int), column := some (col : Int) },
                        error_type := classify_error_type msg } }
              | none =>
                  { st with
                    pending := some
                      { main_error := msg,
                        location := { file := f, line := some (ln : Int), column := some (col : Int) },
                        error_type := classify_error_type msg } }
          | none => st
        else if strContains line "note:" then
          match noteMatch line with
          | some (f, ln, col, msg) =>
              if strContains msg "candidate" then
                { st with
                  notes := st.notes ++
                    [(msg, { file := f, line := some (ln : Int), column := some (col : Int) })],
                  candidates := st.candidates ++ [msg] }
              else
                { st with
                  notes := st.notes ++
                    [(msg, { file := f, line := some (ln : Int), column := some (col : Int) })] }
          | none =>
              match candidateMatch line with
              | some c => { st with candidates := st.candidates ++ [c] }
              | none => { st with notes := st.notes ++ [(line, { file := "unknown" })] }
        else st

/-- One iteration on a raw line: the source strips it first (main.py line 113). -/
def processLine (st : ParseState) (rawLine : String) : ParseState :=
  processStripped st (pyStrip rawLine)

/-- The line list of `parse_error_text` (main.py line 104):
`error_text.strip().split('\n')`. -/
def pyLines (text : String) : List String :=
  (splitOnAux '\n' [] (pyStripList text.toList)).map String.mk

/-- The trailing flush after the loop (main.py lines 217-222): a record still
open at end of input is closed and appended. -/
def finalizeState (st : ParseState) : List CompilationError :=
  match st.pending with
  | some pe => st.errors ++ [closePending pe st]
  | none => st.errors

/-- The source's `parse_error_text` (main.py lines 102-224). -/
def parse_error_text (error_text : String) : List CompilationError :=
  finalizeState ((pyLines error_text).foldl processLine initState)

/-- Python's `html.escape(s, quote=True)` (main.py uses `html.escape`): the
five sequential replacements are equivalent to this per-character map. -/
def htmlEscape (s : String) : String :=
  String.mk (s.toList.foldr
    (fun c acc =>
      if c = '&' then "&amp;".toList ++ acc
      else if c = '<' then "&lt;".toList ++ acc
      else if c = '>' then "&gt;".toList ++ acc
      else if c = '"' then "&quot;".toList ++ acc
      else if c = '\'' then "&#x27;".toList ++ acc
      else c :: acc)
    [])

/-- Rendering of an optional line or column number in `_generate_error_card`:
the Python expression `value or '?'` falls back to `?` when the value is
`None` and also when it is the integer 0 (0 is falsy). -/
def dispNum : Option Int → String
  | none => "?"
  | some v => if v = 0 then "?" else toString v

/-- The location text of an error card's header
(main.py line 312: `{file}:{line or '?'}:{column or '?'}`). -/
def errorLocationHtml (e : CompilationError) : String :=
  htmlEscape e.location.file ++ ":" ++ dispNum e.location.line ++ ":" ++
    dispNum e.location.column

/-- The location text of a chain frame in the template-chain section
(main.py line 258). -/
def templateLocationHtml (t : TemplateInstantiation) : String :=
  htmlEscape t.location.file ++ ":" ++ dispNum t.location.line ++ ":" ++
    dispNum t.location.column

/-- The location text of a note item in the notes section (main.py line 281). -/
def noteLocationHtml (loc : ErrorLocation) : String :=
  htmlEscape loc.file ++ ":" ++ dispNum loc.line ++ ":" ++ dispNum loc.column

/-- The notes actually rendered in a card's notes section (main.py lines
274-283): a note is skipped when its message contains "candidate" after
lowercasing (`if "candidate" not in note_msg.lower()`). -/
def renderedNotes (e : CompilationError) : List (String × ErrorLocation) :=
  e.notes.filter (fun note => !(strContains (pyLower note.1) "candidate"))

/-- The candidates rendered in a card's candidates section (main.py lines
295-305): all of them, in order. -/
def renderedCandidates (e : CompilationError) : List String :=
  e.candidates

/-- Exit code of the driver `main` (main.py lines 559-582), as a function of
the outcome of the try block: `none` models an exception escaping the block
(caught by the `except`, which prints and returns 1); `some errors` models
the parse result (zero records prints "no errors" and returns 1, otherwise
the report is written and 0 returned). -/
def mainExitCode : Option (List CompilationError) → Nat
  | none => 1
  | some [] => 1
  | some (_ :: _) => 0

/-- The first part of the message `main` prints in each outcome (main.py
lines 563, 571, 581); the interpolated tail (file name, exception text) is
cut off. -/
def mainMessage : Option (List CompilationError) → String
  | none => "Error processing compilation output: "
  | some [] => "No compilation errors found in the input"
  | some (_ :: _) => "Generated HTML report: "

/-- Classifier as claim C3 words it, with every keyword tested as a
case-insensitive substring; written from the claim only to be compared
against the source's `classify_error_type`. -/
def classifyAllCI (error_msg : String) : String :=
  if strContains (pyLower error_msg) "use of deleted function" then "Deleted Function"
  else if strContains (pyLower error_msg) "no matching function" then "No Matching Function"
  else if strContains (pyLower error_msg) "no member named" then "No Member"
  else if strContains (pyLower error_msg) "incomplete type" then "Incomplete Type"
  else if strContains (pyLower error_msg) "static assertion failed" then "Static Assertion Failed"
  else if strContains (pyLower error_msg) "template" then "Template Error"
  else if strContains (pyLower error_msg) "cannot convert" then "Type Conversion Error"
  else if strContains (pyLower error_msg) "ambiguous" then "Ambiguous Reference"
  else "Compilation Error"

/-- The classifier's keyword table in priority order: (case-insensitive?,
keyword, category). Only "template" is tested on the lowercased message in
the source; every other keyword is matched exact-case. -/
def classifyKeywords : List (Bool × String × String) :=
  [(false, "use of deleted function", "Deleted Function"),
   (false, "no matching function", "No Matching Function"),
   (false, "no member named", "No Member"),
   (false, "incomplete type", "Incomplete Type"),
   (false, "static assertion failed", "Static Assertion Failed"),
   (true, "template", "Template Error"),
   (false, "cannot convert", "Type Conversion Error"),
   (false, "ambiguous", "Ambiguous Reference")]

/-- One keyword test of the classifier table. -/
def kwHit (msg : String) (ci : Bool) (kw : String) : Bool :=
  cond ci (strContains (pyLower msg) kw) (strContains msg kw)

/-- First-match-wins lookup over a classifier table, defaulting to the
generic category. -/
def firstMatchCat (msg : String) : List (Bool × String × String) → String
  | [] => "Compilation Error"
  | (ci, kw, cat) :: rest =>
      if kwHit msg ci kw then cat else firstMatchCat msg rest

/-- The classifier as the amended claim C3 words it: first match wins over
`classifyKeywords`, total, generic category when nothing matches. -/
def classifySpec (msg : String) : String :=
  firstMatchCat msg classifyKeywords

/-- Invariant of a chain segment: the levels count up from `n`. -/
def chainOKFrom : Nat → List TemplateInstantiation → Prop
  | _, [] => True
  | n, t :: ts => t.level = n ∧ chainOKFrom (n + 1) ts

/-- Invariant of the parsing state: the chain buffer's levels count up from
0, and so do the levels of every already closed record's chain. -/
def stateOK (st : ParseState) : Prop :=
  chainOKFrom 0 st.chain ∧ ∀ e ∈ st.errors, chainOKFrom 0 e.template_chain

theorem chainOKFrom_append (n : Nat) (l : List TemplateInstantiation)
    (t : TemplateInstantiation) (h : chainOKFrom n l) (ht : t.level = n + l.length) :
    chainOKFrom n (l ++ [t]) := by
  induction l generalizing n with
  | nil => exact ⟨by simpa using ht, trivial⟩
  | cons a as ih =>
      obtain ⟨h1, h2⟩ := h
      refine ⟨h1, ih (n + 1) h2 ?_⟩
      simp only [List.length_cons] at ht
      omega

theorem chainOKFrom_get (n : Nat) (l : List TemplateInstantiation)
    (h : chainOKFrom n l) (k : Nat) (hk : k < l.length) :
    (l.get ⟨k, hk⟩).level = n + k := by
  induction l generalizing n k with
  | nil => exact absurd hk (by simp)
  | cons a as ih =>
      cases k with
      | zero => simpa using h.1
      | succ k =>
          have hk2 : k < as.length := by
            simp only [List.length_cons] at hk
            omega
          have h3 := ih (n + 1) h.2 k hk2
          show (as.get ⟨k, hk2⟩).level = n + (k + 1)
          omega

theorem errorsOK_append_close (st : ParseState) (pe : CompilationError)
    (hc : chainOKFrom 0 st.chain)
    (he : ∀ e ∈ st.errors, chainOKFrom 0 e.template_chain) :
    ∀ e ∈ st.errors ++ [closePending pe st], chainOKFrom 0 e.template_chain := by
  intro e hme
  rcases List.mem_append.mp hme with h1 | h2
  · exact he e h1
  · have h3 : e = closePending pe st := by simpa using h2
    rw [h3]
    exact hc

theorem stateOK_processStripped (st : ParseState) (line : String)
    (h : stateOK st) : stateOK (processStripped st line) := by
  obtain ⟨hc, he⟩ := h
  unfold processStripped
  repeat' split
  all_goals
    first
      | exact ⟨hc, he⟩
      | exact ⟨trivial, errorsOK_append_close st _ hc he⟩
      | exact ⟨hc, errorsOK_append_close st _ hc he⟩
      | exact ⟨chainOKFrom_append 0 st.chain _ hc (by simp), he⟩

theorem stateOK_processLine (st : ParseState) (l : String) (h : stateOK st) :
    stateOK (processLine st l) :=
  stateOK_processStripped st (pyStrip l) h

theorem stateOK_foldl (ls : List String) (st : ParseState) (h : stateOK st) :
    stateOK (ls.foldl processLine st) := by
  induction ls generalizing st with
  | nil => exact h
  | cons l ls ih => exact ih _ (stateOK_processLine st l h)

theorem chainOK_of_mem_finalize (st : ParseState) (e : CompilationError)
    (hst : stateOK st) (he : e ∈ finalizeState st) :
    chainOKFrom 0 e.template_chain := by
  obtain ⟨hc, herr⟩ := hst
  unfold finalizeState at he
  rcases hp : st.pending with _ | pe
  · rw [hp] at he
    exact herr e he
  · rw [hp] at he
    exact errorsOK_append_close st pe hc herr e he

theorem processStripped_empty (st : ParseState) :
    processStripped st "" =
      match st.pending with
      | some pe =>
          { errors := st.errors ++ [closePending pe st],
            chain := [], notes := [], candidates := [], pending := none }
      | none => st := by
  have hm : makeErrorMatch "" = false := by decide
  simp [processStripped, hm]

/-- Claim C1, counterexample. The claim says that when a primary error line
closes an in-progress record, all accumulation buffers are emptied, so no
chain frame buffered before that close appears in any later-closed record's
chain. On this input the frame "X" is buffered, the first error line opens a
record, the second error line closes it — and the frame appears in BOTH
records' chains, because the source resets only the notes and candidates
buffers there, not the chain buffer. -/
theorem c1_error_close_counterexample :
    (parse_error_text ("a.cpp: In instantiation of 'X' [with T = int]:\n" ++
        "a.cpp:1:1: error: first\na.cpp:2:2: error: second")).map
      (fun e => e.template_chain.map (fun t => t.template_name)) =
    [["X"], ["X"]] := by decide

/-- Claim C1, amended: when a primary error line is recognized while a record
is in progress, that record is closed with the buffered chain, notes and
candidates flushed into it, the notes and candidates buffers are emptied, a
new record is opened from the matched line — but the chain buffer is NOT
emptied, so chain frames buffered before the close also appear in
later-closed records until a blank line resets the buffer. -/
theorem c1_error_close_amended (st : ParseState) (line f msg : String)
    (ln col : Nat) (pe : CompilationError)
    (hp : st.pending = some pe)
    (hm : makeErrorMatch line = false)
    (hb : ¬(line = ""))
    (ht : templateMatch line = none)
    (hr : strContains line "required from" = false)
    (hco : strContains line "error:" = true)
    (hmatch : errorMatch line = some (f, ln, col, msg)) :
    (processStripped st line).errors = st.errors ++ [closePending pe st] ∧
    (processStripped st line).notes = [] ∧
    (processStripped st line).candidates = [] ∧
    (processStripped st line).chain = st.chain ∧
    (processStripped st line).pending = some
      { main_error := msg,
        location := { file := f, line := some (ln : Int), column := some (col : Int) },
        error_type := classify_error_type msg } := by
  simp [processStripped, hp, hm, hb, ht, hr, hco, hmatch]

/-- Witness for c1_error_close_amended at a concrete state and line. -/
theorem c1_error_close_witness :
    (processStripped
        { errors := [],
          chain := [{ template_name := "X", location := { file := "a.cpp" },
                      context := "T = int", level := 0 }],
          notes := [], candidates := [],
          pending := some { main_error := "first",
                            location := { file := "a.cpp", line := some 1, column := some 1 },
                            error_type := "Compilation Error" } }
        "a.cpp:2:2: error: second").chain =
      [{ template_name := "X", location := { file := "a.cpp" },
         context := "T = int", level := 0 }] ∧
    (processStripped
        { errors := [],
          chain := [{ template_name := "X", location := { file := "a.cpp" },
                      context := "T = int", level := 0 }],
          notes := [], candidates := [],
          pending := some { main_error := "first",
                            location := { file := "a.cpp", line := some 1, column := some 1 },
                            error_type := "Compilation Error" } }
        "a.cpp:2:2: error: second").notes = [] :=
  ⟨(c1_error_close_amended _ "a.cpp:2:2: error: second" "a.cpp" "second" 2 2
      { main_error := "first",
        location := { file := "a.cpp", line := some 1, column := some 1 },
        error_type := "Compilation Error" }
      (by decide) (by decide) (by decide) (by decide) (by decide) (by decide)
      (by decide)).2.2.2.1,
   (c1_error_close_amended _ "a.cpp:2:2: error: second" "a.cpp" "second" 2 2
      { main_error := "first",
        location := { file := "a.cpp", line := some 1, column := some 1 },
        error_type := "Compilation Error" }
      (by decide) (by decide) (by decide) (by decide) (by decide) (by decide)
      (by decide)).2.1⟩

/-- Claim C2, counterexample. The claim says the candidate test on a strict
note line's message is case-insensitive; the source tests
`"candidate" in note_msg` exact-case. The message "Candidate: void g()"
contains "candidate" case-insensitively, is appended to the notes, and is
NOT appended to the candidates. -/
theorem c2_note_candidate_counterexample :
    strContains (pyLower "Candidate: void g()") "candidate" = true ∧
    (parse_error_text
        "f.cpp:1:2: error: no match\nf.cpp:3:4: note: Candidate: void g()").map
      (fun e => (e.notes.map Prod.fst, e.candidates)) =
    [(["Candidate: void g()"], ([] : List String))] := by decide

/-- Claim C2, amended: for a strict-form note line the message is appended to
the buffered notes list with its parsed location, and the raw message is also
appended to the buffered candidates list exactly when it contains the
substring "candidate" under CASE-SENSITIVE comparison. -/
theorem c2_note_candidate_amended (st : ParseState) (line f msg : String)
    (ln col : Nat)
    (hm : makeErrorMatch line = false)
    (hb : ¬(line = ""))
    (ht : templateMatch line = none)
    (hr : strContains line "required from" = false)
    (heb : strContains line "error:" = false)
    (hn : strContains line "note:" = true)
    (hmatch : noteMatch line = some (f, ln, col, msg)) :
    (processStripped st line).notes =
      st.notes ++ [(msg, { file := f, line := some (ln : Int), column := some (col : Int) })] ∧
    (processStripped st line).candidates =
      (if strContains msg "candidate" then st.candidates ++ [msg] else st.candidates) := by
  cases hcand : strContains msg "candidate" <;>
    simp [processStripped, hm, hb, ht, hr, heb, hn, hmatch, hcand]

/-- Witness for c2_note_candidate_amended at a concrete state and line. -/
theorem c2_note_candidate_witness :
    (processStripped initState "f.cpp:3:4: note: Candidate: void g()").notes =
      initState.notes ++
        [("Candidate: void g()", { file := "f.cpp", line := some 3, column := some 4 })] ∧
    (processStripped initState "f.cpp:3:4: note: Candidate: void g()").candidates =
      (if strContains "Candidate: void g()" "candidate" then
        initState.candidates ++ ["Candidate: void g()"]
      else initState.candidates) :=
  c2_note_candidate_amended initState "f.cpp:3:4: note: Candidate: void g()"
    "f.cpp" "Candidate: void g()" 3 4
    (by decide) (by decide) (by decide) (by decide) (by decide) (by decide)
    (by decide)

/-- Claim C3, counterexample. The claim says every keyword of the classifier
is tested as a case-insensitive substring; in the source only "template" is
tested on the lowercased message. On "AMBIGUOUS" the case-insensitive reading
(classifyAllCI) yields the ambiguous-reference category, the source's
classifier yields the generic one. -/
theorem c3_classify_counterexample :
    classify_error_type "AMBIGUOUS" = "Compilation Error" ∧
    classifyAllCI "AMBIGUOUS" = "Ambiguous Reference" ∧
    ("Compilation Error" : String) ≠ "Ambiguous Reference" := by decide

/-- Claim C3, amended: classify is total on strings and equals first-match-
wins lookup over the fixed priority table, where "template" is tested as a
case-insensitive substring and every other keyword exact-case, defaulting to
the generic category when no keyword matches. -/
theorem c3_classify_amended (msg : String) :
    classify_error_type msg = classifySpec msg := by
  simp only [classify_error_type, classifySpec, classifyKeywords, firstMatchCat,
    kwHit, Bool.cond_false, Bool.cond_true]

/-- Claim C4: in every record produced by parse, the chain frame at index k
has depth (level) k, for every input text. Encounter order of chain, notes
and candidates is intrinsic to the list model: entries are only ever appended. -/
theorem c4_chain_depth (text : String) (e : CompilationError)
    (he : e ∈ parse_error_text text) (k : Nat) (hk : k < e.template_chain.length) :
    (e.template_chain.get ⟨k, hk⟩).level = k := by
  have hst : stateOK ((pyLines text).foldl processLine initState) :=
    stateOK_foldl _ _ ⟨trivial, fun e h => absurd h (List.not_mem_nil e)⟩
  have hch : chainOKFrom 0 e.template_chain :=
    chainOK_of_mem_finalize _ e hst he
  have h0 := chainOKFrom_get 0 e.template_chain hch k hk
  omega

/-- Witness for c4_chain_depth on a concrete input with a one-frame chain. -/
theorem c4_chain_depth_witness :
    ({ main_error := "first",
       location := { file := "a.cpp", line := some 1, column := some 1 },
       template_chain := [{ template_name := "X", location := { file := "a.cpp" },
                            context := "T = int", level := 0 }],
       error_type := "Compilation Error" } : CompilationError) ∈
      parse_error_text
        "a.cpp: In instantiation of 'X' [with T = int]:\na.cpp:1:1: error: first" ∧
    (({ main_error := "first",
        location := { file := "a.cpp", line := some 1, column := some 1 },
        template_chain := [{ template_name := "X", location := { file := "a.cpp" },
                             context := "T = int", level := 0 }],
        error_type := "Compilation Error" } : CompilationError).template_chain.get
      ⟨0, by decide⟩).level = 0 :=
  ⟨by decide,
   c4_chain_depth
     "a.cpp: In instantiation of 'X' [with T = int]:\na.cpp:1:1: error: first"
     { main_error := "first",
       location := { file := "a.cpp", line := some 1, column := some 1 },
       template_chain := [{ template_name := "X", location := { file := "a.cpp" },
                            context := "T = int", level := 0 }],
       error_type := "Compilation Error" }
     (by decide) 0 (by decide)⟩

/-- Claim C5, counterexample. The claim says no string is presented in both a
record's rendered notes section and its candidates section. On this input the
loose candidate line puts "void f(int)" into the candidates, the strict note
line puts the same string into the notes; rendering suppresses only notes
containing "candidate", so the string appears in both sections. -/
theorem c5_candidate_exclusivity_counterexample :
    (parse_error_text
        ("f.cpp:1:2: error: no match\nf.cpp:3:4: note: void f(int)\n" ++
          "note: candidate: void f(int)")).map
      (fun e => ((renderedNotes e).map Prod.fst, renderedCandidates e)) =
    [(["void f(int)"], ["void f(int)"])] := by decide

/-- Claim C5, amended: the rendered notes section omits exactly those notes
whose message contains the substring "candidate" case-insensitively; a note
whose content merely coincides with a candidate entry but does not contain
"candidate" is rendered in both sections. -/
theorem c5_candidate_note_suppressed (e : CompilationError) (msg : String)
    (loc : ErrorLocation) (hc : strContains (pyLower msg) "candidate" = true) :
    (msg, loc) ∉ renderedNotes e := by
  intro hmem
  unfold renderedNotes at hmem
  rw [List.mem_filter] at hmem
  simp [hc] at hmem

/-- Witness for c5_candidate_note_suppressed at a concrete record and note. -/
theorem c5_candidate_exclusivity_witness :
    strContains (pyLower "candidate: void f(int)") "candidate" = true ∧
    ("candidate: void f(int)",
      ({ file := "f.cpp", line := some 3, column := some 4 } : ErrorLocation)) ∉
      renderedNotes
        { main_error := "no match",
          location := { file := "f.cpp", line := some 1, column := some 2 },
          notes := [("candidate: void f(int)",
                     { file := "f.cpp", line := some 3, column := some 4 })],
          candidates := ["candidate: void f(int)"],
          error_type := "Compilation Error" } :=
  ⟨by decide,
   c5_candidate_note_suppressed
     { main_error := "no match",
       location := { file := "f.cpp", line := some 1, column := some 2 },
       notes := [("candidate: void f(int)",
                  { file := "f.cpp", line := some 3, column := some 4 })],
       candidates := ["candidate: void f(int)"],
       error_type := "Compilation Error" }
     "candidate: void f(int)"
     { file := "f.cpp", line := some 3, column := some 4 }
     (by decide)⟩

/-- Claim C6: for every input, the output of parse equals the closed-record
list obtained by feeding one extra blank line to the final loop state: input
ending while a record is still open yields that record exactly as if a blank
line had been seen; and whenever a record is still pending at end of input,
it is closed with the final buffers and appended as the last record. -/
theorem c6_eof_flush (text : String) :
    parse_error_text text =
      (processStripped ((pyLines text).foldl processLine initState) "").errors ∧
    ∀ pe : CompilationError,
      ((pyLines text).foldl processLine initState).pending = some pe →
      parse_error_text text =
        ((pyLines text).foldl processLine initState).errors ++
          [closePending pe ((pyLines text).foldl processLine initState)] := by
  constructor
  · unfold parse_error_text finalizeState
    rw [processStripped_empty]
    rcases hp : ((pyLines text).foldl processLine initState).pending with _ | pe <;>
      simp [hp]
  · intro pe hp
    unfold parse_error_text finalizeState
    rw [hp]

/-- Witness for c6_eof_flush: input ending right after a primary error line
still yields the record. -/
theorem c6_eof_flush_witness :
    ((pyLines "f.cpp:1:2: error: x").foldl processLine initState).pending =
      some { main_error := "x",
             location := { file := "f.cpp", line := some 1, column := some 2 },
             error_type := "Compilation Error" } ∧
    parse_error_text "f.cpp:1:2: error: x" =
      ((pyLines "f.cpp:1:2: error: x").foldl processLine initState).errors ++
        [closePending
          { main_error := "x",
            location := { file := "f.cpp", line := some 1, column := some 2 },
            error_type := "Compilation Error" }
          ((pyLines "f.cpp:1:2: error: x").foldl processLine initState)] :=
  ⟨by decide,
   (c6_eof_flush "f.cpp:1:2: error: x").2
     { main_error := "x",
       location := { file := "f.cpp", line := some 1, column := some 2 },
       error_type := "Compilation Error" }
     (by decide)⟩

/-- Claim C7: parse_location never fails — for every string, either the split
on ':' has at least three parts whose second and third parse as integers and
the result is the fully populated location, or the result degrades to the
whole string as the file with line and column absent. -/
theorem c7_parse_location_total (s : String) :
    (∃ p0 p1 p2 rest l c,
        (splitOnAux ':' [] s.toList).map String.mk = p0 :: p1 :: p2 :: rest ∧
        pyInt p1 = some l ∧ pyInt p2 = some c ∧
        parse_location s =
          { file := p0, line := some l, column := some c, function := none }) ∨
    parse_location s = { file := s, line := none, column := none, function := none } := by
  rcases hsplit : (splitOnAux ':' [] s.data).map String.mk with _ | ⟨p0, _ | ⟨p1, _ | ⟨p2, rest⟩⟩⟩
  · right; simp [parse_location, hsplit]
  · right; simp [parse_location, hsplit]
  · right; simp [parse_location, hsplit]
  · rcases h1 : pyInt p1 with _ | l
    · right; simp [parse_location, hsplit, h1]
    · rcases h2 : pyInt p2 with _ | c
      · right; simp [parse_location, hsplit, h1, h2]
      · exact Or.inl ⟨p0, p1, p2, rest, l, c, hsplit, h1, h2,
          by simp [parse_location, hsplit, h1, h2]⟩

/-- Claim C8: parse is deterministic — it is a pure function of the input
text, so identical texts yield structurally equal record sequences. -/
theorem c8_parse_deterministic (t1 t2 : String) (h : t1 = t2) :
    parse_error_text t1 = parse_error_text t2 := by
  rw [h]

/-- Witness for c8_parse_deterministic at a concrete input. -/
theorem c8_parse_deterministic_witness :
    ("f.cpp:1:2: error: x" : String) = "f.cpp:1:2: error: x" ∧
    parse_error_text "f.cpp:1:2: error: x" = parse_error_text "f.cpp:1:2: error: x" :=
  ⟨rfl, c8_parse_deterministic "f.cpp:1:2: error: x" "f.cpp:1:2: error: x" rfl⟩

/-- Claim C9, counterexample. The claim says an unexpected internal failure
exits with a non-zero status distinguishable from the status of the
zero-records case; in the source both paths return 1. -/
theorem c9_exit_counterexample :
    mainExitCode none = mainExitCode (some []) ∧ mainExitCode (some []) = 1 := by
  decide

/-- Claim C9, amended: the driver returns status 0 with the document written
when at least one record was parsed; zero records report "no errors found"
with status 1 rather than crashing; an unexpected internal failure is caught
and reported as a message with the non-zero status 1 — the SAME status as the
zero-records case, the two outcomes being distinguished only by the printed
message. -/
theorem c9_exit_amended (e : CompilationError) (l : List CompilationError) :
    mainExitCode (some (e :: l)) = 0 ∧
    mainExitCode (some []) = 1 ∧
    mainExitCode none = 1 ∧
    mainMessage none ≠ mainMessage (some []) := by
  refine ⟨rfl, rfl, rfl, ?_⟩
  decide

/-- Claim C10: a location whose line or column was parsed as the integer 0 is
rendered as '?', exactly as when the field is absent, at all three rendering
sites (primary location, chain-frame location, note location); and a genuine
0 can reach those fields through parse_location. -/
theorem c10_zero_renders_unknown (f nm ctx : String) (fn : Option String) (lvl : Nat) :
    noteLocationHtml { file := f, line := some 0, column := some 0, function := fn } =
      noteLocationHtml { file := f, line := none, column := none, function := fn } ∧
    templateLocationHtml
        { template_name := nm,
          location := { file := f, line := some 0, column := some 0, function := fn },
          context := ctx, level := lvl } =
      templateLocationHtml
        { template_name := nm,
          location := { file := f, line := none, column := none, function := fn },
          context := ctx, level := lvl } ∧
    errorLocationHtml
        { main_error := nm,
          location := { file := f, line := some 0, column := some 0, function := fn } } =
      errorLocationHtml
        { main_error := nm,
          location := { file := f, line := none, column := none, function := fn } } ∧
    dispNum (some 0) = "?" ∧ dispNum none = "?" ∧
    parse_location "a.cpp:0:7" = { file := "a.cpp", line := some 0, column := some 7 } := by
  refine ⟨rfl, rfl, rfl, rfl, rfl, by decide⟩
